import Mathlib

/-!
Verification of the Fire Disaster Response Pipeline
(`backend/module3/fire_disaster/service.py`).

The Python service is shallowly embedded: floats become `ℚ`, Python ints
become `ℤ`/`ℕ`, `None`-able values become `Option`, and the database rows a
step reads are passed in as explicit lists / optional records.  The geospatial
kernel (`_haversine`, `_bearing`) is trigonometric, so the steps that consume
it are parametrised over the distance / bearing function; every theorem below
holds for an arbitrary such function, hence in particular for haversine.
-/

/-- Type of the distance / bearing kernel: `lat₁ lon₁ lat₂ lon₂ ↦ value`. -/
abbrev GeoFn := ℚ → ℚ → ℚ → ℚ → ℚ

/-- Python `x or d` on an optional numeric value: `None` and `0` are falsy and
yield the default `d`; any other value passes through. -/
def pyOr (x : Option ℚ) (d : ℚ) : ℚ :=
  match x with
  | none => d
  | some v => if v = 0 then d else v

/-- Python truthiness of an optional numeric value: `None` and `0` are falsy. -/
def pyTruthy (x : Option ℚ) : Bool :=
  match x with
  | none => false
  | some v => v != 0

/-- Python `int(q)`: truncation toward zero. -/
def pyInt (q : ℚ) : ℤ :=
  if 0 ≤ q then ⌊q⌋ else -⌊-q⌋

/-- Python `round` to the nearest integer, ties to even (banker's rounding). -/
def roundHalfEven (x : ℚ) : ℤ :=
  if x - ⌊x⌋ < 1/2 then ⌊x⌋
  else if x - ⌊x⌋ > 1/2 then ⌊x⌋ + 1
  else if ⌊x⌋ % 2 = 0 then ⌊x⌋ else ⌊x⌋ + 1

/-- Python `round(x, 1)`. -/
def pyRound1 (x : ℚ) : ℚ :=
  (roundHalfEven (10 * x) : ℚ) / 10

/-- Python `round(x, 2)`. -/
def pyRound2 (x : ℚ) : ℚ :=
  (roundHalfEven (100 * x) : ℚ) / 100

/-- The weather fields used by `_step1_weather_check` (any may be absent). -/
structure WeatherObs where
  temperature_c : Option ℚ
  humidity_percentage : Option ℚ
  wind_speed_kmh : Option ℚ
deriving DecidableEq

/-- The fire-weather risk score accumulated in `_step1_weather_check`
(lines 152-177): inputs defaulted with Python `or`, then three
independent `if`/`elif` chains add their points. -/
def riskScore (w : WeatherObs) : ℕ :=
  let temp := pyOr w.temperature_c 0
  let humidity := pyOr w.humidity_percentage 100
  let wind := pyOr w.wind_speed_kmh 0
  (if temp > 35 then 3 else if temp > 28 then 2 else if temp > 20 then 1 else 0)
    + (if humidity < 20 then 3 else if humidity < 35 then 2
       else if humidity < 50 then 1 else 0)
    + (if wind > 40 then 3 else if wind > 25 then 2 else if wind > 10 then 1 else 0)

/-- The risk label chosen from the score in `_step1_weather_check`
(lines 179-186). -/
def riskLabel (s : ℕ) : String :=
  if s ≥ 7 then "extreme"
  else if s ≥ 5 then "high"
  else if s ≥ 3 then "moderate"
  else "low"

/-- Temperature points exactly as the spec words them. -/
def claimTempPoints (t : ℚ) : ℕ :=
  if t > 35 then 3 else if t > 28 then 2 else if t > 20 then 1 else 0

/-- Humidity points exactly as the spec words them. -/
def claimHumidityPoints (h : ℚ) : ℕ :=
  if h < 20 then 3 else if h < 35 then 2 else if h < 50 then 1 else 0

/-- Wind points exactly as the spec words them. -/
def claimWindPoints (v : ℚ) : ℕ :=
  if v > 40 then 3 else if v > 25 then 2 else if v > 10 then 1 else 0

/-- The risk score as the claim words it: the points are computed from the
raw field values, the defaults (0 / 100 / 0) applying only when the field is
missing. -/
def claimRiskScore (w : WeatherObs) : ℕ :=
  claimTempPoints (w.temperature_c.getD 0)
    + claimHumidityPoints (w.humidity_percentage.getD 100)
    + claimWindPoints (w.wind_speed_kmh.getD 0)

/-- A `Region` row as the pipeline reads it (`models/agricultural.py`). -/
structure Region where
  id : ℕ
  name : String
  latitude : ℚ
  longitude : ℚ
  population : Option ℕ
  is_active : Bool
deriving DecidableEq

/-- The request schema (`fire_disaster/schemas.py`): validation bounds
`radius_km ∈ [5,500]`, `fire_intensity ∈ [0.1,1]`, `displacement_pct ∈ [0,1]`
are enforced before the pipeline runs. -/
structure FireReq where
  latitude : ℚ
  longitude : ℚ
  radius_km : ℚ
  fire_intensity : ℚ
  displacement_pct : ℚ
deriving DecidableEq

/-- Step-2 output record (`fire_disaster/schemas.py`). -/
structure AffectedZone where
  region_id : ℕ
  region_name : String
  distance_km : ℚ
  severity : String
  population : Option ℕ
  wind_exposed : Bool
deriving DecidableEq

/-- Embeds `_WIND_BEARINGS.get(weather.wind_direction or "", None)`
(service.py lines 56-59 and 209). -/
def windBearingOf (code : Option String) : Option ℚ :=
  match code with
  | none => none
  | some c =>
      if c = "N" then some 0 else if c = "NE" then some 45
      else if c = "E" then some 90 else if c = "SE" then some 135
      else if c = "S" then some 180 else if c = "SW" then some 225
      else if c = "W" then some 270 else if c = "NW" then some 315
      else none

/-- The angular difference computed at lines 238-240: absolute difference,
folded onto `[0,180]` when it exceeds 180. -/
def angleDiff (a b : ℚ) : ℚ :=
  if |a - b| > 180 then 360 - |a - b| else |a - b|

/-- Shortest-arc angular difference between two bearings, as the claim words
it. -/
def shortestArc (a b : ℚ) : ℚ :=
  min |a - b| (360 - |a - b|)

/-- One iteration of the zone-flagging loop (service.py lines 212-256):
distance test, severity score, bucketing, wind-exposure, one-step upgrade. -/
def flagZone (dF bF : GeoFn) (req : FireReq) (windBearing : Option ℚ)
    (region : Region) : Option AffectedZone :=
  let dist := dF req.latitude req.longitude region.latitude region.longitude
  if dist > req.radius_km then none
  else
    let normalised := dist / req.radius_km
    let severity_score := (1 - normalised) * req.fire_intensity
    let severity0 : String :=
      if severity_score ≥ 6/10 then "critical"
      else if severity_score ≥ 3/10 then "high"
      else "moderate"
    let wind_exposed : Bool :=
      match windBearing with
      | none => false
      | some wb =>
          decide (angleDiff (bF req.latitude req.longitude region.latitude region.longitude) wb < 60)
    let severity : String :=
      if wind_exposed ∧ severity0 = "moderate" then "high"
      else if wind_exposed ∧ severity0 = "high" then "critical"
      else severity0
    some { region_id := region.id
           region_name := region.name
           distance_km := pyRound1 dist
           severity := severity
           population := region.population
           wind_exposed := wind_exposed }

/-- Ordering of affected zones by their (rounded) `distance_km` field, the
sort key of line 258. -/
def zoneLE (a b : AffectedZone) : Prop :=
  a.distance_km ≤ b.distance_km

instance : DecidableRel zoneLE :=
  fun a b => inferInstanceAs (Decidable (a.distance_km ≤ b.distance_km))

instance : IsTotal AffectedZone zoneLE :=
  ⟨fun a b => le_total a.distance_km b.distance_km⟩

instance : IsTrans AffectedZone zoneLE :=
  ⟨fun _ _ _ => le_trans⟩

/-- Embeds `_step2_flag_zones` (lines 200-263) over the list of active regions the
DB query returns: flag each region, drop the distant ones, sort ascending by
`distance_km`. -/
def step2_flag_zones (dF bF : GeoFn) (req : FireReq) (windBearing : Option ℚ)
    (regions : List Region) : List AffectedZone :=
  List.insertionSort zoneLE (regions.filterMap (flagZone dF bF req windBearing))

/-- Severity bucket from the score, as the claim words it. -/
def severityBucket (score : ℚ) : String :=
  if score ≥ 6/10 then "critical"
  else if score ≥ 3/10 then "high"
  else "moderate"

/-- One-step severity escalation, as the claim words it: moderate→high,
high→critical, critical unchanged. -/
def stepUpSeverity (s : String) : String :=
  if s = "moderate" then "high"
  else if s = "high" then "critical"
  else s

/-- Escalate exactly one step when wind-exposed, as the claim words it. -/
def escalate (s : String) (exposed : Bool) : String :=
  if exposed then stepUpSeverity s else s

/-- Wind exposure as the claim words it: a wind bearing is known and the
shortest-arc difference between fire-to-region bearing and wind bearing is
strictly below 60 degrees. -/
def windExposedClaim (bF : GeoFn) (req : FireReq) (windBearing : Option ℚ)
    (region : Region) : Bool :=
  match windBearing with
  | none => false
  | some wb =>
      decide (shortestArc (bF req.latitude req.longitude region.latitude region.longitude) wb < 60)

/-- A `TransportRoute` row as step 3 reads it (`models/distribution.py`). -/
structure TransportRoute where
  id : ℕ
  name : String
  origin_region_id : ℕ
  destination_region_id : ℕ
  operational_status : String
  is_active : Bool
deriving DecidableEq

/-- The fields of the `RouteDisruption` row created at lines 310-321 that the
claims are about. -/
structure RouteDisruption where
  route_id : ℕ
  region_id : ℕ
  severity : String
  capacity_reduction_percentage : ℕ
deriving DecidableEq

/-- Embeds `severity_map.get(region_id, "")` (lines 271, 294-295); the Python dict
keeps the last binding for a duplicated key. -/
def severityOf (zones : List AffectedZone) (rid : ℕ) : String :=
  match zones.reverse.find? (fun z => z.region_id == rid) with
  | some z => z.severity
  | none => ""

/-- The severity rank dict of `_worst_severity` (line 793). -/
def severityOrder (s : String) : ℕ :=
  if s = "critical" then 3 else if s = "high" then 2
  else if s = "moderate" then 1 else 0

/-- Embeds `_worst_severity` (lines 791-794): ties favour the first operand. -/
def worstSeverity (a b : String) : String :=
  if severityOrder a ≥ severityOrder b then a else b

/-- The route-selection predicate of the query at lines 277-288. -/
def routeTouchesAffected (affected_ids : List ℕ) (rt : TransportRoute) : Bool :=
  rt.is_active && rt.operational_status == "operational"
    && (affected_ids.contains rt.origin_region_id
        || affected_ids.contains rt.destination_region_id)

/-- The `RouteDisruption` row built for one matched route (lines 292-321):
worst-of-endpoint severity, mapped capacity reduction, and `region_id`
always set to the route's origin region. -/
def mkDisruption (zones : List AffectedZone) (rt : TransportRoute) : RouteDisruption :=
  let worst := worstSeverity (severityOf zones rt.origin_region_id)
    (severityOf zones rt.destination_region_id)
  { route_id := rt.id
    region_id := rt.origin_region_id
    severity :=
      if worst = "critical" then "CRITICAL"
      else if worst = "high" then "HIGH"
      else if worst = "moderate" then "MEDIUM" else "MEDIUM"
    capacity_reduction_percentage :=
      if worst = "critical" then 100
      else if worst = "high" then 70
      else if worst = "moderate" then 40 else 40 }

/-- Embeds `_step3_create_disruptions` (lines 267-341), restricted to the disruption
rows it creates. -/
def step3_create_disruptions (zones : List AffectedZone)
    (routes : List TransportRoute) : List RouteDisruption :=
  let affected_ids := zones.map (·.region_id)
  if affected_ids.isEmpty then []
  else (routes.filter (routeTouchesAffected affected_ids)).map (mkDisruption zones)

/-- Embeds the dict lookup `severity -> multiplier` with default 0.3
(line 378). -/
def sevMult (s : String) : ℚ :=
  if s = "critical" then 1 else if s = "high" then 7/10
  else if s = "moderate" then 3/10 else 3/10

/-- Step-4 output record (`fire_disaster/schemas.py`). -/
structure DisplacementEntry where
  from_region_id : ℕ
  from_region_name : String
  to_region_id : ℕ
  to_region_name : String
  displaced_count : ℕ
deriving DecidableEq

/-- Embeds `_get_region` (lines 763-767): look a region up by id. -/
def findRegion (db : List Region) (rid : ℕ) : Option Region :=
  db.find? (fun r => r.id == rid)

/-- The decreasing-share allocation loop of lines 397-412, as the list of
emitted shares: at each step `share = max(1, remaining // candidates_left)`
capped at `remaining`; stop when the candidates run out or `remaining`
reaches zero. -/
def allocShares : ℕ → ℕ → List ℕ
  | _, 0 => []
  | remaining, k + 1 =>
      if remaining = 0 then []
      else
        min (max 1 (remaining / (k + 1))) remaining
          :: allocShares (remaining - min (max 1 (remaining / (k + 1))) remaining) k

/-- Distance from a fixed source region, the sort key of line 394. -/
def distFrom (dF : GeoFn) (src r : Region) : ℚ :=
  dF src.latitude src.longitude r.latitude r.longitude

/-- Receiver ordering: ascending distance from the source region. -/
def nearerTo (dF : GeoFn) (src : Region) (a b : Region) : Prop :=
  distFrom dF src a ≤ distFrom dF src b

instance (dF : GeoFn) (src : Region) : DecidableRel (nearerTo dF src) :=
  fun a b => inferInstanceAs (Decidable (distFrom dF src a ≤ distFrom dF src b))

instance (dF : GeoFn) (src : Region) : IsTotal Region (nearerTo dF src) :=
  ⟨fun a b => le_total (distFrom dF src a) (distFrom dF src b)⟩

instance (dF : GeoFn) (src : Region) : IsTrans Region (nearerTo dF src) :=
  ⟨fun _ _ _ => le_trans⟩

/-- The body of the per-zone displacement loop (lines 372-412): compute the
displaced count, resolve the source region, sort the receiver pool by
distance from it, and emit one entry per allocated share. -/
def zoneEntries (dF : GeoFn) (db : List Region) (displacement_pct : ℚ)
    (safe_regions : List Region) (zone : AffectedZone) : List DisplacementEntry :=
  let pop := zone.population.getD 0
  if pop = 0 then []
  else
    let displaced := pyInt ((pop : ℚ) * displacement_pct * sevMult zone.severity)
    if displaced = 0 then []
    else
      match findRegion db zone.region_id with
      | none => []
      | some from_region =>
          let sorted_safe := List.insertionSort (nearerTo dF from_region) safe_regions
          let shares := allocShares displaced.toNat sorted_safe.length
          (sorted_safe.zip shares).map (fun p =>
            { from_region_id := zone.region_id
              from_region_name := zone.region_name
              to_region_id := p.1.id
              to_region_name := p.1.name
              displaced_count := p.2 })

/-- Descending ordering of zones by `distance_km`, the
`sorted(..., reverse=True)` key of lines 360-362. -/
def fartherZone (a b : AffectedZone) : Prop :=
  b.distance_km ≤ a.distance_km

instance : DecidableRel fartherZone :=
  fun a b => inferInstanceAs (Decidable (b.distance_km ≤ a.distance_km))

/-- Embeds `_step4_displace_population` (lines 345-419), restricted to the entries it
emits: the receiver pool is the active unaffected regions, or — when there is
none — the rows of the 3 most-distant affected zones; each zone's displaced
population is then distributed by `zoneEntries`. -/
def step4_displace_population (dF : GeoFn) (db : List Region) (req : FireReq)
    (zones : List AffectedZone) : List DisplacementEntry :=
  let affected_ids := zones.map (·.region_id)
  let safe0 := db.filter (fun r => r.is_active && !(affected_ids.contains r.id))
  let safe_regions :=
    if safe0.isEmpty then
      let receiver_ids := ((List.insertionSort fartherZone zones).take 3).map (·.region_id)
      db.filter (fun r => receiver_ids.contains r.id)
    else safe0
  (zones.map (zoneEntries dF db req.displacement_pct safe_regions)).flatten

/-- The latest `FoodInventory` row for a region (`models/inventory.py`),
as step 5's per-region query returns it. -/
structure FoodInventory where
  region_id : ℕ
  quantity_tonnes : ℚ
  days_of_supply : Option ℚ
  consumption_rate_tonnes_per_day : Option ℚ
deriving DecidableEq

/-- Step-5 output record (`fire_disaster/schemas.py`). -/
structure SupplyRecalcEntry where
  region_id : ℕ
  region_name : String
  original_population : ℕ
  effective_population : ℤ
  demand_multiplier : ℚ
  estimated_days_of_supply : Option ℚ
deriving DecidableEq

/-- The per-region body of `_step5_recalculate_supply` (lines 438-471):
`inv` is the latest inventory row the query found for the region, if any. -/
def recalcEntry (region : Region) (delta : ℤ) (inv : Option FoodInventory) :
    SupplyRecalcEntry :=
  let original_pop : ℕ := region.population.getD 0
  let effective_pop : ℤ := max 0 ((original_pop : ℤ) + delta)
  let demand_mult : ℚ :=
    if 0 < original_pop then (effective_pop : ℚ) / (original_pop : ℚ) else 1
  let est_days : Option ℚ :=
    match inv with
    | none => none
    | some i =>
        if pyTruthy i.consumption_rate_tonnes_per_day
            ∧ 0 < i.consumption_rate_tonnes_per_day.getD 0 then
          let adjusted_rate := i.consumption_rate_tonnes_per_day.getD 0 * demand_mult
          if 0 < adjusted_rate then some (pyRound1 (i.quantity_tonnes / adjusted_rate))
          else none
        else if pyTruthy i.days_of_supply then
          if 0 < demand_mult then some (pyRound1 (i.days_of_supply.getD 0 / demand_mult))
          else none
        else none
  { region_id := region.id
    region_name := region.name
    original_population := original_pop
    effective_population := effective_pop
    demand_multiplier := pyRound2 demand_mult
    estimated_days_of_supply := est_days }

/-- The `AlertLevel` enum (`schemas/alerts.py`). -/
inductive AlertLevel where
  | NORMAL
  | WARNING
  | IMMINENT
  | CRITICAL
deriving DecidableEq

/-- Embeds `settings.shortage_critical_days` (config.py line 53). -/
def shortage_critical_days : ℚ := 7

/-- Embeds `settings.shortage_imminent_days` (config.py line 52). -/
def shortage_imminent_days : ℚ := 15

/-- The alert level computed at lines 487-506: base level from zone severity,
then the days-of-supply override. -/
def alertLevelFor (severity : String) (days : Option ℚ) : AlertLevel :=
  let level :=
    if severity = "critical" then AlertLevel.CRITICAL
    else if severity = "high" then AlertLevel.IMMINENT
    else AlertLevel.WARNING
  match days with
  | none => level
  | some d =>
      if d < shortage_critical_days then AlertLevel.CRITICAL
      else if d < shortage_imminent_days ∧ level ≠ AlertLevel.CRITICAL then
        AlertLevel.IMMINENT
      else level

/-- Base alert level derived from zone severity, as the claim words it. -/
def baseAlertLevel (severity : String) : AlertLevel :=
  if severity = "critical" then AlertLevel.CRITICAL
  else if severity = "high" then AlertLevel.IMMINENT
  else AlertLevel.WARNING

/-- The ordering critical ≥ imminent ≥ warning ≥ normal, as the claim words
it. -/
def levelRank : AlertLevel → ℕ
  | .NORMAL => 0
  | .WARNING => 1
  | .IMMINENT => 2
  | .CRITICAL => 3

/-- The fields of the `ShortageAlert` row created at lines 511-535 that the
claims are about. -/
structure ShortageAlert where
  region_id : ℕ
  alert_level : AlertLevel
  population_affected : Option ℕ
  days_until_shortage : Option ℤ
  current_days_supply : Option ℚ
deriving DecidableEq

/-- The supply entry joined to a zone by `region_id` (lines 496-499), reduced
to the days-of-supply it contributes. -/
def joinedDays (supplyEntries : List SupplyRecalcEntry) (zone : AffectedZone) :
    Option ℚ :=
  match supplyEntries.find? (fun s => s.region_id == zone.region_id) with
  | some s => s.estimated_days_of_supply
  | none => none

/-- The `ShortageAlert` row built for one zone (lines 486-535); note
`days_until_shortage = int(days) if days else None` at line 525. -/
def mkAlert (supplyEntries : List SupplyRecalcEntry) (zone : AffectedZone) :
    ShortageAlert :=
  let days := joinedDays supplyEntries zone
  { region_id := zone.region_id
    alert_level := alertLevelFor zone.severity days
    population_affected := zone.population
    days_until_shortage :=
      match days with
      | some d => if d ≠ 0 then some (pyInt d) else none
      | none => none
    current_days_supply := days }

/-- Embeds `_step6_generate_alerts` (lines 480-552), restricted to the alert rows it
creates: one per affected zone. -/
def step6_generate_alerts (supplyEntries : List SupplyRecalcEntry)
    (zones : List AffectedZone) : List ShortageAlert :=
  zones.map (mkAlert supplyEntries)

/-- Concrete stand-in for the haversine kernel in concrete scenarios: the
squared euclidean distance on raw coordinates.  Every theorem below holds for
an arbitrary `GeoFn`, so any computable instance serves for evaluation. -/
def sqDist : GeoFn := fun lat1 lon1 lat2 lon2 =>
  (lat2 - lat1) ^ 2 + (lon2 - lon1) ^ 2

/-- Constant-zero bearing kernel for concrete scenarios. -/
def zeroBearing : GeoFn := fun _ _ _ _ => 0

/-- Scenario for C1 (the spec's scenario 1): one critical zone of population
100000 at the epicenter. -/
def c1zone : AffectedZone := ⟨1, "Origin", 0, "critical", some 100000, false⟩

/-- Scenario for C1: the database rows behind the zone and the safe region. -/
def c1db : List Region :=
  [⟨1, "Origin", 0, 0, some 100000, true⟩, ⟨2, "Safe", 2, 0, some 50000, true⟩]

/-- Scenario for C1: the single safe receiver region. -/
def c1safe : Region := ⟨2, "Safe", 2, 0, some 50000, true⟩

/-- Scenario for C2: a critical source zone of population 10 (displaced
count 5). -/
def c2zone : AffectedZone := ⟨1, "Source", 0, "critical", some 10, false⟩

/-- Scenario for C2: the database row behind the source zone. -/
def c2db : List Region := [⟨1, "Source", 0, 0, some 10, true⟩]

/-- Scenario for C2: three safe regions at distances 1 < 2 < 3 from the
source. -/
def c2safe : List Region :=
  [⟨11, "S1", 0, 1, some 5, true⟩, ⟨12, "S2", 0, 2, some 5, true⟩,
   ⟨13, "S3", 0, 3, some 5, true⟩]

/-- Scenario for C3: fire at the origin, radius 50, intensity 0.7. -/
def c3req : FireReq := ⟨0, 0, 50, 7/10, 2/5⟩

/-- Scenario for C3: a region at squared distance 25 from the fire, inside
the radius. -/
def c3r1 : Region := ⟨1, "Near", 5, 0, some 100, true⟩

/-- Scenario for C3: a region at squared distance 10000 from the fire,
outside the radius. -/
def c3r2 : Region := ⟨2, "Far", 100, 0, none, true⟩

/-- Scenario for C6: a region whose recorded population is 0. -/
def c6region : Region := ⟨7, "Empty", 0, 0, some 0, true⟩

/-- Scenario for C7: a region whose inventory row has neither a consumption
rate nor a prior days-of-supply value. -/
def c7region : Region := ⟨8, "NoData", 0, 0, some 10, true⟩

/-- Scenario for C7: that inventory row. -/
def c7inv : FoodInventory := ⟨8, 5, none, none⟩

/-- Scenario for C8: a fire request with displacement fraction 1/2. -/
def c8req : FireReq := ⟨0, 0, 50, 1, 1/2⟩

/-- Scenario for C8: region A, at the fire epicenter. -/
def c8regA : Region := ⟨1, "A", 0, 0, some 10, true⟩

/-- Scenario for C8: region B, slightly farther out. -/
def c8regB : Region := ⟨2, "B", 0, 1, some 10, true⟩

/-- Scenario for C8: two active regions, both of which will be affected, so
the no-safe-region fallback fires. -/
def c8db : List Region := [c8regA, c8regB]

/-- Scenario for C8: region A flagged critical at distance 0. -/
def c8zoneA : AffectedZone := ⟨1, "A", 0, "critical", some 10, false⟩

/-- Scenario for C8: region B flagged critical at distance 1. -/
def c8zoneB : AffectedZone := ⟨2, "B", 1, "critical", some 10, false⟩

/-- Scenario for C8: both regions flagged as critical zones. -/
def c8zones : List AffectedZone := [c8zoneA, c8zoneB]

/-- Scenario for C9: a single affected zone. -/
def c9zones : List AffectedZone := [⟨1, "Z1", 0, "high", some 5, false⟩]

/-- Scenario for C9: an operational route whose destination (only) is
affected. -/
def c9routes : List TransportRoute := [⟨21, "R21", 2, 1, "operational", true⟩]

/-- Scenario for C9: the disruption row the engine creates for that route,
attributed to the route's (unaffected) origin region 2. -/
def c9d : RouteDisruption := ⟨21, 2, "HIGH", 70⟩

/-- Scenario for C10: a zone whose joined days-of-supply is exactly 0. -/
def c10zone : AffectedZone := ⟨5, "Z5", 0, "moderate", some 9, false⟩

/-- Scenario for C10: the supply entry carrying `estimated_days_of_supply = 0`. -/
def c10sup : List SupplyRecalcEntry := [⟨5, "Z5", 9, 9, 1, some 0⟩]

/-- Scenario for C10: a zone whose joined days-of-supply is 1/2. -/
def c10zone2 : AffectedZone := ⟨6, "Z6", 0, "moderate", some 9, false⟩

/-- Scenario for C10: the supply entry carrying
`estimated_days_of_supply = 1/2`. -/
def c10sup2 : List SupplyRecalcEntry := [⟨6, "Z6", 9, 9, 1, some (1/2)⟩]

/-- Python `int()` truncation agrees with the floor on nonnegative values. -/
theorem pyInt_eq_floor {q : ℚ} (h : 0 ≤ q) : pyInt q = ⌊q⌋ := by
  simp [pyInt, h]

/-- Banker's rounding is nonnegative on nonnegative inputs. -/
theorem roundHalfEven_nonneg {x : ℚ} (hx : 0 ≤ x) : 0 ≤ roundHalfEven x := by
  have hf : (0 : ℤ) ≤ ⌊x⌋ := Int.floor_nonneg.mpr hx
  unfold roundHalfEven
  split
  · exact hf
  · split
    · omega
    · split <;> omega

/-- The wind-cone angular difference of the code equals the shortest-arc
difference whenever both bearings lie in `[0, 360)`. -/
theorem angleDiff_eq_shortestArc {a b : ℚ} (ha0 : 0 ≤ a) (ha : a < 360)
    (hb0 : 0 ≤ b) (hb : b < 360) : angleDiff a b = shortestArc a b := by
  have habs : |a - b| < 360 := abs_sub_lt_iff.mpr ⟨by linarith, by linarith⟩
  unfold angleDiff shortestArc
  split
  · rename_i h
    exact (min_eq_right (by linarith)).symm
  · rename_i h
    push_neg at h
    exact (min_eq_left (by linarith)).symm

/-- Rounding `round(x, 2)` is nonnegative on nonnegative inputs. -/
theorem pyRound2_nonneg {x : ℚ} (hx : 0 ≤ x) : 0 ≤ pyRound2 x := by
  unfold pyRound2
  have h : (0 : ℤ) ≤ roundHalfEven (100 * x) :=
    roundHalfEven_nonneg (by positivity)
  positivity

/-- Rounding `round(1, 2)` gives 1. -/
theorem pyRound2_one : pyRound2 1 = 1 := by
  norm_num [pyRound2, roundHalfEven]

/-- Every severity multiplier is nonnegative. -/
theorem sevMult_nonneg (s : String) : 0 ≤ sevMult s := by
  unfold sevMult
  repeat' split
  all_goals norm_num

/-- The share list never has more entries than there are candidates. -/
theorem allocShares_length_le : ∀ (k r : ℕ), (allocShares r k).length ≤ k := by
  intro k
  induction k with
  | zero => intro r; simp [allocShares]
  | succ k ih =>
      intro r
      rw [allocShares]
      split
      · simp
      · simpa using Nat.succ_le_succ (ih _)

/-- Conservation: with at least one candidate, the shares sum to exactly the
amount to distribute. -/
theorem allocShares_sum : ∀ (k r : ℕ), 1 ≤ k → (allocShares r k).sum = r := by
  intro k
  induction k with
  | zero => intro r h; omega
  | succ k ih =>
      intro r _
      rw [allocShares]
      split
      · rename_i hr; simp [hr]
      · rename_i hr
        simp only [List.sum_cons]
        cases k with
        | zero =>
            simp only [allocShares, List.sum_nil]
            omega
        | succ k' =>
            rw [ih _ (by omega)]
            generalize hsh : min (max 1 (r / (k' + 1 + 1))) r = s
            have hle : s ≤ r := hsh ▸ min_le_right _ _
            omega

/-- Monotonicity of the allocation loop: the emitted shares are
non-decreasing in iteration order. -/
theorem allocShares_chain : ∀ (k r : ℕ), List.Chain' (· ≤ ·) (allocShares r k) := by
  intro k
  induction k with
  | zero => intro r; simp [allocShares]
  | succ k ih =>
      intro r
      rw [allocShares]
      split
      · simp
      · rename_i hr
        rw [List.chain'_cons']
        refine ⟨?_, ih _⟩
        intro y hy
        cases k with
        | zero => simp [allocShares] at hy
        | succ k' =>
            rw [allocShares] at hy
            by_cases h0 : r - min (max 1 (r / (k' + 1 + 1))) r = 0
            · simp [h0] at hy
            · rw [if_neg h0] at hy
              simp only [List.head?_cons, Option.mem_def, Option.some.injEq] at hy
              subst hy
              by_cases hq : r / (k' + 1 + 1) = 0
              · omega
              · have hmul : r / (k' + 1 + 1) * (k' + 1 + 1) ≤ r :=
                  Nat.div_mul_le_self _ _
                have hqm : r / (k' + 1 + 1) * 1 ≤ r / (k' + 1 + 1) * (k' + 1) :=
                  Nat.mul_le_mul_left _ (by omega)
                have hsum : r / (k' + 1 + 1) * (k' + 1) + r / (k' + 1 + 1)
                    = r / (k' + 1 + 1) * (k' + 1 + 1) := by ring
                have hkey : r / (k' + 1 + 1) * (k' + 1)
                    ≤ r - min (max 1 (r / (k' + 1 + 1))) r := by omega
                have hq' : r / (k' + 1 + 1)
                    ≤ (r - min (max 1 (r / (k' + 1 + 1))) r) / (k' + 1) :=
                  (Nat.le_div_iff_mul_le (by omega)).mpr hkey
                omega

/-- C5 (amended): the fire-weather classifier score is the sum of the three
point tables applied to the Python-`or`-defaulted inputs (a missing — or
present-but-zero — field falls back to 0 / 100 / 0 respectively); the label
is "extreme" iff score ≥ 7, else "high" iff ≥ 5, else "moderate" iff ≥ 3,
else "low"; and temperature 36, humidity 15, wind 45 scores 9 and labels
"extreme". -/
theorem C5_fire_weather_classifier (w : WeatherObs) :
    riskScore w =
        claimTempPoints (pyOr w.temperature_c 0)
          + claimHumidityPoints (pyOr w.humidity_percentage 100)
          + claimWindPoints (pyOr w.wind_speed_kmh 0)
      ∧ (∀ s : ℕ,
          (riskLabel s = "extreme" ↔ 7 ≤ s)
            ∧ (riskLabel s = "high" ↔ 5 ≤ s ∧ s < 7)
            ∧ (riskLabel s = "moderate" ↔ 3 ≤ s ∧ s < 5)
            ∧ (riskLabel s = "low" ↔ s < 3))
      ∧ riskScore ⟨some 36, some 15, some 45⟩ = 9
      ∧ riskLabel (riskScore ⟨some 36, some 15, some 45⟩) = "extreme" := by
  refine ⟨rfl, ?_, ?_, ?_⟩
  · intro s
    unfold riskLabel
    repeat' split
    all_goals simp_all
    all_goals omega
  · norm_num [riskScore, pyOr]
  · norm_num [riskScore, riskLabel, pyOr]

/-- C5 counterexample: with humidity present and equal to 0, the code's falsy
default replaces it by 100, so the score is 6, not the claimed 3+3+3 = 9. -/
theorem C5_counterexample :
    riskScore ⟨some 36, some 0, some 45⟩ ≠ claimRiskScore ⟨some 36, some 0, some 45⟩ := by
  norm_num [riskScore, claimRiskScore, claimTempPoints, claimHumidityPoints,
    claimWindPoints, pyOr]

/-- C4: the final alert level never falls below the severity-derived base
level under the ordering critical ≥ imminent ≥ warning ≥ normal: the
days-of-supply override only raises it. -/
theorem C4_alert_never_downgrades (severity : String) (days : Option ℚ) :
    levelRank (baseAlertLevel severity) ≤ levelRank (alertLevelFor severity days) := by
  unfold baseAlertLevel alertLevelFor
  cases days with
  | none => simp
  | some d =>
      simp only []
      repeat' split
      all_goals simp_all [levelRank]

/-- C6: supply recalculation is safe: the effective population and the demand
multiplier are never negative (for any delta, however negative), and a region
of original population 0 gets demand multiplier 1 with no division by
zero. -/
theorem C6_supply_recalc_bounds (region : Region) (delta : ℤ)
    (inv : Option FoodInventory) :
    0 ≤ (recalcEntry region delta inv).effective_population
      ∧ 0 ≤ (recalcEntry region delta inv).demand_multiplier
      ∧ (region.population.getD 0 = 0 →
          (recalcEntry region delta inv).demand_multiplier = 1) := by
  refine ⟨le_max_left _ _, ?_, ?_⟩
  · show 0 ≤ pyRound2 _
    apply pyRound2_nonneg
    split
    · apply div_nonneg
      · exact_mod_cast le_max_left (0 : ℤ) _
      · positivity
    · norm_num
  · intro h
    show pyRound2 _ = 1
    rw [h]
    norm_num [pyRound2_one]

/-- C6 witness: a region recorded with population 0 and a large negative
delta. -/
theorem C6_witness :
    0 ≤ (recalcEntry c6region (-50) none).effective_population
      ∧ (recalcEntry c6region (-50) none).demand_multiplier = 1 := by
  have h := C6_supply_recalc_bounds c6region (-50) none
  exact ⟨h.1, h.2.2 rfl⟩

/-- C7: a region with no inventory row, or whose inventory row has neither a
positive consumption rate nor a prior days-of-supply value, gets
`estimated_days_of_supply = none` — not 0 and not an error. -/
theorem C7_missing_inventory_no_estimate (region : Region) (delta : ℤ)
    (inv : Option FoodInventory)
    (h : ∀ i, inv = some i →
      (∀ rate, i.consumption_rate_tonnes_per_day = some rate → ¬ 0 < rate)
        ∧ i.days_of_supply = none) :
    (recalcEntry region delta inv).estimated_days_of_supply = none := by
  cases inv with
  | none => rfl
  | some i =>
      obtain ⟨hrate, hdays⟩ := h i rfl
      cases hr : i.consumption_rate_tonnes_per_day with
      | none => simp [recalcEntry, pyTruthy, hr, hdays]
      | some rate =>
          have hneg : ¬ 0 < rate := hrate rate hr
          simp [recalcEntry, pyTruthy, hr, hdays, hneg]

/-- C7 witness: a region whose inventory row exists but carries neither a
consumption rate nor a days-of-supply value. -/
theorem C7_witness :
    (recalcEntry c7region 0 (some c7inv)).estimated_days_of_supply = none := by
  apply C7_missing_inventory_no_estimate
  intro i hi
  cases hi
  constructor
  · intro rate hr
    simp [c7inv] at hr
  · rfl

/-- C10: whenever the joined days-of-supply is exactly 0, the created alert
has `days_until_shortage = none` (Python truthiness treats 0.0 as absent)
while `current_days_supply = 0`; and any days value in (0,1) truncates to
`days_until_shortage = 0`. -/
theorem C10_zero_days_falsy (supplyEntries : List SupplyRecalcEntry)
    (zone : AffectedZone) :
    (joinedDays supplyEntries zone = some 0 →
        (mkAlert supplyEntries zone).days_until_shortage = none
          ∧ (mkAlert supplyEntries zone).current_days_supply = some 0)
      ∧ (∀ d : ℚ, joinedDays supplyEntries zone = some d → 0 < d → d < 1 →
          (mkAlert supplyEntries zone).days_until_shortage = some 0) := by
  constructor
  · intro h
    simp [mkAlert, h]
  · intro d h hd0 hd1
    have hne : d ≠ 0 := ne_of_gt hd0
    have hfl : pyInt d = 0 := by
      rw [pyInt_eq_floor (le_of_lt hd0)]
      exact Int.floor_eq_zero_iff.mpr (Set.mem_Ico.mpr ⟨le_of_lt hd0, hd1⟩)
    simp [mkAlert, h, hne, hfl]

/-- C10 witness: a supply entry of exactly 0 days and one of 1/2 days. -/
theorem C10_witness :
    (mkAlert c10sup c10zone).days_until_shortage = none
      ∧ (mkAlert c10sup c10zone).current_days_supply = some 0
      ∧ (mkAlert c10sup2 c10zone2).days_until_shortage = some 0 := by
  have h1 := (C10_zero_days_falsy c10sup c10zone).1 rfl
  have h2 := (C10_zero_days_falsy c10sup2 c10zone2).2 (1/2) rfl
    (by norm_num) (by norm_num)
  exact ⟨h1.1, h1.2, h2⟩

/-- The displaced counts of the entries a zone emits are exactly the shares
zipped onto the sorted receivers. -/
theorem zoneEntries_map_count (l : List Region) (s : List ℕ) (zone : AffectedZone) :
    List.map (fun e => e.displaced_count)
      ((l.zip s).map (fun p =>
        ({ from_region_id := zone.region_id
           from_region_name := zone.region_name
           to_region_id := p.1.id
           to_region_name := p.1.name
           displaced_count := p.2 } : DisplacementEntry)))
      = List.map Prod.snd (l.zip s) := by
  rw [List.map_map]
  rfl

/-- Unfolding of `zoneEntries` when the zone has population, a nonzero
displaced count, and a resolvable source region. -/
theorem zoneEntries_eq_some (dF : GeoFn) (db : List Region) (pct : ℚ)
    (safe_regions : List Region) (zone : AffectedZone) (fr : Region)
    (hpop : zone.population.getD 0 ≠ 0)
    (hd : pyInt ((zone.population.getD 0 : ℚ) * pct * sevMult zone.severity) ≠ 0)
    (hfr : findRegion db zone.region_id = some fr) :
    zoneEntries dF db pct safe_regions zone
      = ((List.insertionSort (nearerTo dF fr) safe_regions).zip
          (allocShares
            (pyInt ((zone.population.getD 0 : ℚ) * pct * sevMult zone.severity)).toNat
            (List.insertionSort (nearerTo dF fr) safe_regions).length)).map
          (fun p =>
            { from_region_id := zone.region_id
              from_region_name := zone.region_name
              to_region_id := p.1.id
              to_region_name := p.1.name
              displaced_count := p.2 }) := by
  simp only [zoneEntries]
  rw [if_neg hpop, if_neg hd, hfr]

/-- C1: for a zone with nonzero population and nonzero computed displaced
count `floor(population * displacement_pct * severity_multiplier)`, when the
receiver pool is nonempty and the zone's region resolves, the displaced
counts of the emitted entries sum to exactly the displaced count: no
population is lost and none is over-allocated. -/
theorem C1_displacement_conservation (dF : GeoFn) (db : List Region) (pct : ℚ)
    (safe_regions : List Region) (zone : AffectedZone)
    (hpct : 0 ≤ pct)
    (hpop : zone.population.getD 0 ≠ 0)
    (hdisp : ⌊(zone.population.getD 0 : ℚ) * pct * sevMult zone.severity⌋ ≠ 0)
    (hsafe : safe_regions ≠ [])
    (hfr : (findRegion db zone.region_id).isSome = true) :
    ((((zoneEntries dF db pct safe_regions zone).map
          (fun e => e.displaced_count)).sum : ℕ) : ℤ)
      = ⌊(zone.population.getD 0 : ℚ) * pct * sevMult zone.severity⌋ := by
  have hq : (0:ℚ) ≤ (zone.population.getD 0 : ℚ) * pct * sevMult zone.severity :=
    mul_nonneg (mul_nonneg (by positivity) hpct) (sevMult_nonneg _)
  have hpy := pyInt_eq_floor hq
  simp only [zoneEntries]
  rw [if_neg hpop, hpy, if_neg hdisp]
  cases hfr2 : findRegion db zone.region_id with
  | none => rw [hfr2] at hfr; simp at hfr
  | some fr =>
      rw [zoneEntries_map_count]
      rw [List.map_snd_zip _ _ (allocShares_length_le _ _)]
      have hk : 1 ≤ (List.insertionSort (nearerTo dF fr) safe_regions).length := by
        rw [List.length_insertionSort]
        exact List.length_pos.mpr hsafe
      rw [allocShares_sum _ _ hk]
      exact Int.toNat_of_nonneg (Int.floor_nonneg.mpr hq)

/-- C1 witness: the spec's scenario 1 — population 100000, displacement 0.5,
critical severity, a single safe region: all 50000 displaced people are
allocated. -/
theorem C1_witness :
    ((((zoneEntries sqDist c1db (1/2) [c1safe] c1zone).map
          (fun e => e.displaced_count)).sum : ℕ) : ℤ)
      = 50000 := by
  have h := C1_displacement_conservation sqDist c1db (1/2) [c1safe] c1zone
    (by norm_num) (by simp [c1zone]) (by norm_num [c1zone, sevMult]) (by simp) rfl
  rw [h]
  norm_num [c1zone, sevMult]

/-- C2 (amended): the share sequence produced by the decreasing-share
allocation is non-decreasing in iteration order — over receivers sorted
ascending by distance, a strictly closer receiver never gets more than a
farther one (the converse of the original claim). -/
theorem C2_displacement_shares_monotone (dF : GeoFn) (db : List Region) (pct : ℚ)
    (safe_regions : List Region) (zone : AffectedZone) :
    List.Chain' (· ≤ ·)
      ((zoneEntries dF db pct safe_regions zone).map (fun e => e.displaced_count)) := by
  simp only [zoneEntries]
  split
  · simp
  · split
    · simp
    · cases hfr : findRegion db zone.region_id with
      | none => simp
      | some fr =>
          rw [zoneEntries_map_count]
          rw [List.map_snd_zip _ _ (allocShares_length_le _ _)]
          exact allocShares_chain _ _

/-- C2 counterexample: a critical zone of population 10 with
displacement_pct = 0.5 (displaced count 5) and three safe regions at
distances 1 < 2 < 3 produces shares 1, 2, 2: the closest receiver gets
strictly fewer people, so the share sequence is not strictly decreasing. -/
theorem C2_counterexample :
    (zoneEntries sqDist c2db (1/2) c2safe c2zone).map (fun e => e.displaced_count) = [1, 2, 2]
      ∧ ¬ List.Chain' (fun a b => b < a)
          ((zoneEntries sqDist c2db (1/2) c2safe c2zone).map (fun e => e.displaced_count)) := by
  have hsort : List.insertionSort (nearerTo sqDist ⟨1, "Source", 0, 0, some 10, true⟩) c2safe
      = c2safe := by
    norm_num [c2safe, List.insertionSort, List.orderedInsert, nearerTo, distFrom, sqDist]
  have hz := zoneEntries_eq_some sqDist c2db (1/2) c2safe c2zone
    ⟨1, "Source", 0, 0, some 10, true⟩
    (by simp [c2zone]) (by norm_num [c2zone, pyInt, sevMult]) rfl
  have hpy : (pyInt ((c2zone.population.getD 0 : ℚ) * (1/2) * sevMult c2zone.severity)).toNat
      = 5 := by
    norm_num [c2zone, pyInt, sevMult]
    rfl
  have h : (zoneEntries sqDist c2db (1/2) c2safe c2zone).map (fun e => e.displaced_count)
      = [1, 2, 2] := by
    rw [hz, zoneEntries_map_count, hsort, hpy]
    rw [show c2safe.length = 3 from rfl, show allocShares 5 3 = [1, 2, 2] from rfl]
    simp [c2safe]
  refine ⟨h, ?_⟩
  rw [h]
  simp [List.chain'_cons]

/-- C9: every disruption row created by the propagation engine links the
matched route (active, operational, touching the affected set at either
endpoint) and sets its `region_id` to the route's ORIGIN region; in the
concrete scenario, a route matched only through its destination yields a
disruption whose `region_id` lies outside the affected set. -/
theorem C9_disruption_attribution :
    (∀ (zones : List AffectedZone) (routes : List TransportRoute),
      ∀ d ∈ step3_create_disruptions zones routes,
        ∃ rt ∈ routes,
          rt.is_active = true ∧ rt.operational_status = "operational"
            ∧ (rt.origin_region_id ∈ zones.map (fun z => z.region_id)
                ∨ rt.destination_region_id ∈ zones.map (fun z => z.region_id))
            ∧ d.route_id = rt.id ∧ d.region_id = rt.origin_region_id)
      ∧ (∃ d ∈ step3_create_disruptions c9zones c9routes,
          d.region_id ∉ c9zones.map (fun z => z.region_id)) := by
  constructor
  · intro zones routes d hd
    simp only [step3_create_disruptions] at hd
    split at hd
    · cases hd
    · simp only [List.mem_map] at hd
      obtain ⟨rt, hrt, hmk⟩ := hd
      rw [List.mem_filter] at hrt
      obtain ⟨hmem, hpred⟩ := hrt
      simp only [routeTouchesAffected, Bool.and_eq_true, Bool.or_eq_true] at hpred
      obtain ⟨⟨hact, hop⟩, htouch⟩ := hpred
      refine ⟨rt, hmem, hact, by simpa using hop, ?_, ?_, ?_⟩
      · rcases htouch with h | h
        · exact Or.inl (by simpa using h)
        · exact Or.inr (by simpa using h)
      · rw [← hmk]
        rfl
      · rw [← hmk]
        rfl
  · refine ⟨c9d, ?_, ?_⟩
    · show c9d ∈ step3_create_disruptions c9zones c9routes
      decide
    · decide

/-- C9 witness: the general attribution statement applied to the concrete
destination-only-matched route. -/
theorem C9_witness :
    ∃ rt ∈ c9routes,
      rt.is_active = true ∧ rt.operational_status = "operational"
        ∧ (rt.origin_region_id ∈ c9zones.map (fun z => z.region_id)
            ∨ rt.destination_region_id ∈ c9zones.map (fun z => z.region_id))
        ∧ c9d.route_id = rt.id ∧ c9d.region_id = rt.origin_region_id :=
  C9_disruption_attribution.1 c9zones c9routes c9d (by decide)

/-- C8: when no unaffected active region exists, the fallback receiver pool
is built from the most-distant affected zones and a source zone is NOT
excluded from its own receiver list: with both regions affected, zone A's
distance to itself is 0 so it sorts first among its own receivers, and the
pipeline emits entries sending population from a region to itself. -/
theorem C8_self_displacement :
    step4_displace_population sqDist c8db c8req c8zones
      = [⟨1, "A", 1, "A", 2⟩, ⟨1, "A", 2, "B", 3⟩,
         ⟨2, "B", 2, "B", 2⟩, ⟨2, "B", 1, "A", 3⟩]
      ∧ ∃ e ∈ step4_displace_population sqDist c8db c8req c8zones,
          e.from_region_id = e.to_region_id := by
  have hsortA : List.insertionSort (nearerTo sqDist c8regA) [c8regA, c8regB]
      = [c8regA, c8regB] := by
    norm_num [c8regA, c8regB, List.insertionSort, List.orderedInsert, nearerTo,
      distFrom, sqDist]
  have hsortB : List.insertionSort (nearerTo sqDist c8regB) [c8regA, c8regB]
      = [c8regB, c8regA] := by
    norm_num [c8regA, c8regB, List.insertionSort, List.orderedInsert, nearerTo,
      distFrom, sqDist]
  have hpyA : pyInt ((c8zoneA.population.getD 0 : ℚ) * c8req.displacement_pct
      * sevMult c8zoneA.severity) = 5 := by
    norm_num [c8zoneA, c8req, pyInt, sevMult]
  have hpyB : pyInt ((c8zoneB.population.getD 0 : ℚ) * c8req.displacement_pct
      * sevMult c8zoneB.severity) = 5 := by
    norm_num [c8zoneB, c8req, pyInt, sevMult]
  have hA := zoneEntries_eq_some sqDist c8db c8req.displacement_pct
    [c8regA, c8regB] c8zoneA c8regA (by simp [c8zoneA])
    (by rw [hpyA]; norm_num) rfl
  have hB := zoneEntries_eq_some sqDist c8db c8req.displacement_pct
    [c8regA, c8regB] c8zoneB c8regB (by simp [c8zoneB])
    (by rw [hpyB]; norm_num) rfl
  rw [hsortA, hpyA] at hA
  rw [hsortB, hpyB] at hB
  have hA2 : zoneEntries sqDist c8db c8req.displacement_pct [c8regA, c8regB] c8zoneA
      = [⟨1, "A", 1, "A", 2⟩, ⟨1, "A", 2, "B", 3⟩] := by
    rw [hA]
    rw [show ([c8regA, c8regB] : List Region).length = 2 from rfl,
      show ((5:ℤ)).toNat = 5 from rfl,
      show allocShares 5 2 = [2, 3] from rfl]
    simp [c8regA, c8regB, c8zoneA]
  have hB2 : zoneEntries sqDist c8db c8req.displacement_pct [c8regA, c8regB] c8zoneB
      = [⟨2, "B", 2, "B", 2⟩, ⟨2, "B", 1, "A", 3⟩] := by
    rw [hB]
    rw [show ([c8regB, c8regA] : List Region).length = 2 from rfl,
      show ((5:ℤ)).toNat = 5 from rfl,
      show allocShares 5 2 = [2, 3] from rfl]
    simp [c8regA, c8regB, c8zoneB]
  have hmain : step4_displace_population sqDist c8db c8req c8zones
      = zoneEntries sqDist c8db c8req.displacement_pct [c8regA, c8regB] c8zoneA
        ++ zoneEntries sqDist c8db c8req.displacement_pct [c8regA, c8regB] c8zoneB := by
    simp only [step4_displace_population]
    norm_num [c8zones, c8db, c8regA, c8regB, c8zoneA, c8zoneB,
      List.insertionSort, List.orderedInsert, fartherZone]
  have hfinal : step4_displace_population sqDist c8db c8req c8zones
      = [⟨1, "A", 1, "A", 2⟩, ⟨1, "A", 2, "B", 3⟩,
         ⟨2, "B", 2, "B", 2⟩, ⟨2, "B", 1, "A", 3⟩] := by
    rw [hmain, hA2, hB2]
    rfl
  refine ⟨hfinal, ?_⟩
  rw [hfinal]
  exact ⟨⟨1, "A", 1, "A", 2⟩, by simp, rfl⟩

/-- The wind-upgrade `if` chain of the code equals the claim's one-step
escalation of the bucketed severity. -/
theorem codeSeverity_eq_escalate (exposed : Bool) (score : ℚ) :
    (if exposed ∧ severityBucket score = "moderate" then "high"
     else if exposed ∧ severityBucket score = "high" then "critical"
     else severityBucket score) = escalate (severityBucket score) exposed := by
  cases exposed
  · simp [escalate]
  · unfold escalate stepUpSeverity severityBucket
    repeat' split
    all_goals simp_all

/-- C3: zone flagging correctness.  For an arbitrary distance/bearing kernel
whose bearings lie in [0,360) and a wind bearing in [0,360): a region is
flagged iff its distance is within the radius; each flagged zone's
wind-exposure is the shortest-arc 60-degree-cone test and its severity is the
one-step escalation of the bucketed score `(1 - d/r) * intensity`; and the
output list is sorted ascending by `distance_km`. -/
theorem C3_zone_flagging (dF bF : GeoFn) (req : FireReq) (windBearing : Option ℚ)
    (regions : List Region)
    (hb : ∀ la lo la2 lo2, 0 ≤ bF la lo la2 lo2 ∧ bF la lo la2 lo2 < 360)
    (hwb : ∀ w, windBearing = some w → 0 ≤ w ∧ w < 360) :
    (∀ r ∈ regions,
        (dF req.latitude req.longitude r.latitude r.longitude ≤ req.radius_km
          ↔ ∃ z, flagZone dF bF req windBearing r = some z
              ∧ z ∈ step2_flag_zones dF bF req windBearing regions))
      ∧ (∀ z ∈ step2_flag_zones dF bF req windBearing regions,
          ∃ r ∈ regions, flagZone dF bF req windBearing r = some z)
      ∧ (∀ r z, flagZone dF bF req windBearing r = some z →
          z.wind_exposed = windExposedClaim bF req windBearing r
            ∧ z.severity =
                escalate (severityBucket
                    ((1 - dF req.latitude req.longitude r.latitude r.longitude / req.radius_km)
                      * req.fire_intensity)) z.wind_exposed)
      ∧ List.Sorted zoneLE (step2_flag_zones dF bF req windBearing regions) := by
  refine ⟨?_, ?_, ?_, List.sorted_insertionSort zoneLE _⟩
  · intro r hr
    constructor
    · intro hle
      cases hfz : flagZone dF bF req windBearing r with
      | none =>
          exfalso
          simp only [flagZone] at hfz
          rw [if_neg (not_lt.mpr hle)] at hfz
          cases hfz
      | some z =>
          exact ⟨z, rfl, (List.mem_insertionSort zoneLE).mpr
            (List.mem_filterMap.mpr ⟨r, hr, hfz⟩)⟩
    · rintro ⟨z, hz, -⟩
      by_contra hgt
      push_neg at hgt
      simp only [flagZone] at hz
      rw [if_pos hgt] at hz
      cases hz
  · intro z hz
    simp only [step2_flag_zones] at hz
    rw [List.mem_insertionSort] at hz
    exact List.mem_filterMap.mp hz
  · intro r z hz
    simp only [flagZone] at hz
    by_cases hgt : dF req.latitude req.longitude r.latitude r.longitude > req.radius_km
    · rw [if_pos hgt] at hz
      cases hz
    · rw [if_neg hgt] at hz
      rw [Option.some_inj] at hz
      subst hz
      constructor
      · unfold windExposedClaim
        cases windBearing with
        | none => rfl
        | some wb =>
            show decide (angleDiff (bF req.latitude req.longitude r.latitude r.longitude) wb < 60)
              = decide (shortestArc (bF req.latitude req.longitude r.latitude r.longitude) wb < 60)
            rw [decide_eq_decide]
            rw [angleDiff_eq_shortestArc
              (hb req.latitude req.longitude r.latitude r.longitude).1
              (hb req.latitude req.longitude r.latitude r.longitude).2
              (hwb wb rfl).1 (hwb wb rfl).2]
      · exact codeSeverity_eq_escalate _ _

/-- C3 witness: with the concrete kernel, wind bearing 0 and two regions,
the near region is flagged (squared distance 25 ≤ radius 50) and the output
is sorted. -/
theorem C3_witness :
    (∃ z, flagZone sqDist zeroBearing c3req (some 0) c3r1 = some z
        ∧ z ∈ step2_flag_zones sqDist zeroBearing c3req (some 0) [c3r1, c3r2])
      ∧ List.Sorted zoneLE (step2_flag_zones sqDist zeroBearing c3req (some 0) [c3r1, c3r2]) := by
  have h := C3_zone_flagging sqDist zeroBearing c3req (some 0) [c3r1, c3r2]
    (fun la lo la2 lo2 => ⟨by norm_num [zeroBearing], by norm_num [zeroBearing]⟩)
    (fun w hw => by cases hw; exact ⟨le_refl 0, by norm_num⟩)
  refine ⟨(h.1 c3r1 (by simp)).mp ?_, h.2.2.2⟩
  norm_num [sqDist, c3req, c3r1]
